/-
Verification of the deep-research workflow orchestrator
(research_manager.py, planner_agent.py, email_agent.py, deep_research.py,
clarifier_agent.py) against its natural-language specification.

The Python sources are shallowly embedded: pure functions become Lean
functions; the external LLM runner (agents.Runner.run) is treated as an
oracle whose outcome is a parameter; Python exceptions become Except.
-/
import Mathlib

namespace DeepResearch

/-! ## Progress queue (asyncio.Queue as used by the repository)

`asyncio.Queue(maxsize)` with `maxsize = 0` meaning unbounded.
`put_nowait` appends, raising `QueueFull` when a bounded queue is at
capacity. -/

/-- The one exception `asyncio.Queue.put_nowait` can raise. -/
inductive QueueError where
  | queueFull
  deriving DecidableEq, Repr

/-- State of an `asyncio.Queue[str]`: its `maxsize` (0 = unbounded, as in
asyncio) and the buffered items in FIFO order. -/
structure AQueue where
  maxsize : Nat
  items : List String
  deriving DecidableEq, Repr

/-- `asyncio.Queue.put_nowait`: append the item, or raise `QueueFull` when a
bounded queue is already at capacity. -/
def AQueue.put_nowait (q : AQueue) (msg : String) : Except QueueError AQueue :=
  if 0 < q.maxsize ∧ q.maxsize ≤ q.items.length then
    Except.error QueueError.queueFull
  else
    Except.ok ⟨q.maxsize, q.items ++ [msg]⟩

/-! ## research_manager.py: context and progress emission -/

/-- `ResearchContext` from research_manager.py: holds the progress queue and
the trace id of the single run. -/
structure ResearchContext where
  progress_queue : Option AQueue
  trace_id : Option String
  deriving DecidableEq, Repr

/-- `_emit_progress(ctx, message)` from research_manager.py: if the wrapped
context and its queue are present, `put_nowait` the message, swallowing
`QueueFull` (`except asyncio.QueueFull: pass`). The result is the ctx after
the call together with the exception behaviour: `Except.error` would mean an
exception escaped `_emit_progress`. -/
def emit_progress (ctx : Option ResearchContext) (message : String) :
    Except QueueError (Option ResearchContext) :=
  match ctx with
  | none => Except.ok none
  | some c =>
    match c.progress_queue with
    | none => Except.ok (some c)
    | some q =>
      match q.put_nowait message with
      | Except.ok q' => Except.ok (some { c with progress_queue := some q' })
      | Except.error _ => Except.ok (some c)

/-! ## research_manager.py: run_search -/

/-- An internal error raised by the nested `Runner.run(search_agent, ...)`
call; its payload is never inspected by `run_search`, which catches every
`Exception`. -/
structure SearchError where
  msg : String
  deriving DecidableEq, Repr

/-- `run_search(ctx, search_term, reason, progress_label)` from
research_manager.py, with the outcome of the external search task as an oracle
parameter: emit the optional progress label, then return the search
summary, or the empty string if the nested run raised
(`except Exception: return ""`). Returns the ctx after progress emission
together with the string result of the tool. -/
def run_search (ctx : Option ResearchContext) (progress_label : Option String)
    (outcome : Except SearchError String) : Option ResearchContext × String :=
  let ctx' :=
    match progress_label with
    | some label => (emit_progress ctx label).toOption.getD ctx
    | none => ctx
  match outcome with
  | Except.ok s => (ctx', s)
  | Except.error _ => (ctx', "")

/-! ## research_manager.py: the tail of run_research -/

/-- The return computation at the end of `run_research`:
`text = final_output if isinstance(final_output, str) else (final_output or "")`
followed by `return text, text`. `final_output` is modelled as
`Option String` (`none` for Python `None`). -/
def run_research_return (final_output : Option String) : String × String :=
  let text := match final_output with
    | some s => s
    | none => ""
  (text, text)

/-- The turn budget `run_research` passes to `Runner.run` (`max_turns=30`). -/
def run_research_max_turns : Nat := 30

/-- Errors the external runner can raise into `run_research`; the string
carries whatever incomplete text existed when the budget was exhausted
(never surfaced by the code). -/
inductive RunnerError where
  | maxTurnsExceeded (leftover_text : String)
  | other (msg : String)
  deriving DecidableEq, Repr

/-- Outcome of the top-level `Runner.run(research_manager_agent, ...)` call. -/
inductive RunnerOutcome where
  | ok (final_output : Option String)
  | err (e : RunnerError)
  deriving DecidableEq, Repr

/-- `run_research` as a function of the outcome of the external runner: the call
is not wrapped in any `try`/`except`, so a runner exception propagates out of
`run_research`; on success the function returns `(text, text)` as in
`run_research_return`. -/
def run_research_result (outcome : RunnerOutcome) :
    Except RunnerError (String × String) :=
  match outcome with
  | RunnerOutcome.ok fo => Except.ok (run_research_return fo)
  | RunnerOutcome.err e => Except.error e

/-! ## planner_agent.py: PlannerInput and build_planner_prompt -/

/-- `PlannerInput` from planner_agent.py (field order as in the source). -/
structure PlannerInput where
  answers : List String
  query : String
  clarifications : List String
  deriving DecidableEq, Repr

/-- The body built by the `for i, (q, a) in enumerate(zip(...), 1)` loop of
`build_planner_prompt`: one "Question i / Answer i" block per zipped pair,
indices starting at `i`. -/
def planner_prompt_lines : Nat → List (String × String) → String
  | _, [] => ""
  | i, (q, a) :: rest =>
      "Question " ++ toString i ++ ": " ++ q ++ "\nAnswer " ++ toString i ++ ": " ++ a ++ "\n"
        ++ planner_prompt_lines (i + 1) rest

/-- `build_planner_prompt(input_data)` from planner_agent.py: header with the
main query, then the zipped question/answer blocks, then the fixed footer.
`zip` silently truncates to the shorter sequence, exactly as the Python
`zip` builtin does. -/
def build_planner_prompt (input_data : PlannerInput) : String :=
  "Main query: " ++ input_data.query ++ "\n\n"
    ++ planner_prompt_lines 1 (input_data.clarifications.zip input_data.answers)
    ++ "\nBased on the above, create a WebSearchPlan in the required format."

/-- The prompt built by the `plan_searches` tool of research_manager.py after
parsing its JSON argument: the questions and answers lists are packed into a
`PlannerInput` and handed to `build_planner_prompt` with no length
validation of any kind. -/
def plan_searches_prompt (query : String) (questions answers : List String) : String :=
  build_planner_prompt ⟨answers, query, questions⟩

/-! ## email_agent.py: send_email -/

/-- A failure of the SendGrid mail transport
(`sg.client.mail.send.post` raising). -/
structure MailError where
  msg : String
  deriving DecidableEq, Repr

/-- `send_email(subject, html_body)` from email_agent.py as a function of the
outcome of the transport call: the transport call is not wrapped in any
`try`/`except`, so a transport exception propagates out of `send_email`;
on success the tool returns the literal `"success"`. -/
def send_email (outcome : Except MailError Nat) : Except MailError String :=
  match outcome with
  | Except.ok _ => Except.ok "success"
  | Except.error e => Except.error e

/-! ## research_manager.py: run_research input construction and trace event -/

/-- A blank string in the Python sense: `not s.strip()` is true exactly when
every character is whitespace (including the empty string). -/
def isBlank (s : String) : Bool :=
  s.data.all Char.isWhitespace

/-- The context block of the input string built by `run_research`: the last 5 history
turns (`conversation_history[-5:]`), turns with both components empty
filtered out (`if u or a`), each rendered `"User: u\nAssistant: a"` and
joined with blank lines. -/
def history_context (history : List (String × String)) : String :=
  let recent := history.drop (history.length - 5)
  String.intercalate "\n\n"
    ((recent.filter (fun p => p.1 ≠ "" || p.2 ≠ "")).map
      (fun p => "User: " ++ p.1 ++ "\nAssistant: " ++ p.2))

/-- The single input string `run_research` passes to the top-level manager
run: just the user message when the history is empty, otherwise the recent
context prepended under a `[Previous context]` header. -/
def run_research_input (user_message : String) (history : List (String × String)) : String :=
  if history.isEmpty then user_message
  else
    "[Previous context]\n" ++ history_context history
      ++ "\n\n[Current message]\n" ++ user_message

/-- The informational progress event `run_research` publishes for the trace
id, referencing the external trace viewer. -/
def trace_event (trace_id : String) : String :=
  "View trace: https://platform.openai.com/traces/trace?trace_id=" ++ trace_id

/-- The `ResearchContext` constructed at the top of `run_research`:
`ResearchContext(progress_queue=progress_queue, trace_id=trace_id)`. -/
def run_research_ctx (progress_queue : Option AQueue) (trace_id : String) : ResearchContext :=
  ⟨progress_queue, some trace_id⟩

/-- The observable pipeline of `run_research` around the external runner
call: publish the trace event (`put_nowait`, dropping on `QueueFull`), then
return the pair computed from the final output of the runner. The final output is
an oracle parameter independent of the trace id, reflecting that the trace
id is only ever used for observability. -/
def run_research_pipeline (trace_id : String) (final_output : Option String)
    (q : AQueue) : AQueue × (String × String) :=
  let q1 := match q.put_nowait (trace_event trace_id) with
    | Except.ok q' => q'
    | Except.error _ => q
  (q1, run_research_return final_output)

/-! ## deep_research.py: history/message conversions and chat_turn guard -/

/-- A Gradio chat message: `{"role": ..., "content": ...}`. -/
structure Msg where
  role : String
  content : String
  deriving DecidableEq, Repr

/-- `_history_to_messages(history)` from deep_research.py: each `(user,
assistant)` pair contributes a user message when `user` is non-empty and an
assistant message when `assistant` is non-empty. -/
def history_to_messages (history : List (String × String)) : List Msg :=
  history.flatMap (fun p =>
    (if p.1 ≠ "" then [Msg.mk "user" p.1] else [])
      ++ (if p.2 ≠ "" then [Msg.mk "assistant" p.2] else []))

/-- One step of the loop of `_messages_to_history` over message dicts: a user
message opens a new `(content, "")` pair; a non-user message fills the last
empty assistant slot of the last pair, or opens a `("", content)` pair. -/
def messages_to_history_step (hist : List (String × String)) (m : Msg) :
    List (String × String) :=
  if m.role = "user" then hist ++ [(m.content, "")]
  else
    match hist.getLast? with
    | some (u, last_a) =>
        if last_a = "" then hist.dropLast ++ [(u, m.content)]
        else hist ++ [("", m.content)]
    | none => hist ++ [("", m.content)]

/-- `_messages_to_history(messages)` from deep_research.py, restricted to the
dict-shaped branch (every element has a role and a string content). -/
def messages_to_history (messages : List Msg) : List (String × String) :=
  messages.foldl messages_to_history_step []

/-- What the first section of `chat_turn` does with a turn: either return
early (yielding the converted history, the held progress text and an empty
report) or proceed to invoke `run_research` on the message and history. -/
inductive ChatTurnStep where
  | earlyReturn (chatbot : List Msg) (progress : String) (report : String)
  | invokeResearch (message : String) (history : List (String × String))
  deriving DecidableEq, Repr

/-- The guard of `chat_turn(message, history, progress_holder)` from
deep_research.py: `if not (message or "").strip()` yield
`(_history_to_messages(history), progress_holder, "")` and return;
otherwise the orchestrator is invoked on the message and history. -/
def chat_turn_first (message : String) (history : List (String × String))
    (progress_holder : String) : ChatTurnStep :=
  if isBlank message then
    ChatTurnStep.earlyReturn (history_to_messages history) progress_holder ""
  else
    ChatTurnStep.invokeResearch message history

/-! ## Theorems -/

/-- General fact (not tied to a single claim): `send_email` propagates a
transport failure unchanged and only reports `"success"` when the transport
succeeded. -/
theorem send_email_surfaces_transport_error (e : MailError) (n : Nat) :
    send_email (Except.error e) = Except.error e
      ∧ send_email (Except.ok n) = Except.ok "success" :=
  ⟨rfl, rfl⟩

/-- C1: the claim says `run_research` returns an empty `reportMarkdown` when
the run produced no report (e.g. pure clarification). The code instead
returns `(text, text)`, so on a pure-clarification run whose final output is
the clarifying question the report component equals that question and is not
empty — contradicting the docstring of the function itself. This theorem evaluates
the code at such a failing input. -/
theorem run_research_return_duplicates_reply :
    run_research_return (some "Could you clarify the scope of the research?")
        = ("Could you clarify the scope of the research?",
           "Could you clarify the scope of the research?")
      ∧ (run_research_return (some "Could you clarify the scope of the research?")).2 ≠ "" := by
  exact ⟨rfl, by decide⟩

/-- C3 counterexample: when the external runner signals that the turn budget
was exceeded, `run_research` does not return any `(reply, report)` pair at
all — the exception propagates uncaught — so the claim that "whatever
partial text exists is returned" fails at this input. -/
theorem run_research_budget_error_propagates :
    run_research_result
        (RunnerOutcome.err (RunnerError.maxTurnsExceeded "text produced so far"))
      = Except.error (RunnerError.maxTurnsExceeded "text produced so far") := rfl

/-- C3 (amended): `run_research` invokes the runner with a turn budget of 30,
so the run terminates even if a reasoning unit loops; but on budget
exhaustion the runner exception propagates out of `run_research` uncaught
(no partial text is returned), while a successful run returns the
`(text, text)` pair. -/
theorem run_research_turn_budget :
    run_research_max_turns = 30
      ∧ (∀ e, run_research_result (RunnerOutcome.err e) = Except.error e)
      ∧ (∀ fo, run_research_result (RunnerOutcome.ok fo)
          = Except.ok (run_research_return fo)) :=
  ⟨rfl, fun _ => rfl, fun _ => rfl⟩

/-- C4: when the underlying search task raises an internal error, `run_search`
returns the empty string as the search result (the error is swallowed by
`except Exception: return ""`, never propagated — `run_search` is a total
function into plain results), and on success it returns the summary
unchanged. -/
theorem run_search_error_gives_empty (ctx : Option ResearchContext)
    (label : Option String) (e : SearchError) :
    (run_search ctx label (Except.error e)).2 = ""
      ∧ ∀ s, (run_search ctx label (Except.ok s)).2 = s := by
  constructor
  · cases label <;> rfl
  · intro s; cases label <;> rfl

/-- C4 witness: the error outcome evaluates to the empty search result. -/
theorem run_search_error_gives_empty_witness :
    (run_search none none (Except.error ⟨"network down"⟩)).2 = "" :=
  (run_search_error_gives_empty none none ⟨"network down"⟩).1

/-- C5: `_emit_progress` never raises (for every context it evaluates to an
`Except.ok` state — the `QueueFull` raised by `put_nowait` on a full bounded
buffer is caught and ignored); when the buffer is at capacity the event is
dropped and the context is unchanged, and otherwise the event is appended. -/
theorem emit_progress_never_raises (c : ResearchContext) (q : AQueue) (msg : String) :
    (∀ ctx, ∃ ctx', emit_progress ctx msg = Except.ok ctx')
      ∧ (0 < q.maxsize → q.maxsize ≤ q.items.length →
          emit_progress (some { c with progress_queue := some q }) msg
            = Except.ok (some { c with progress_queue := some q }))
      ∧ (¬(0 < q.maxsize ∧ q.maxsize ≤ q.items.length) →
          emit_progress (some { c with progress_queue := some q }) msg
            = Except.ok (some { c with
                progress_queue := some ⟨q.maxsize, q.items ++ [msg]⟩ })) := by
  refine ⟨?_, ?_, ?_⟩
  · intro ctx
    rcases ctx with _ | c'
    · exact ⟨none, rfl⟩
    · rcases hpq : c'.progress_queue with _ | q'
      · exact ⟨some c', by simp [emit_progress, hpq]⟩
      · rcases hput : q'.put_nowait msg with e | q2
        · exact ⟨some c', by simp [emit_progress, hpq, hput]⟩
        · exact ⟨some { c' with progress_queue := some q2 },
            by simp [emit_progress, hpq, hput]⟩
  · intro h1 h2
    simp only [emit_progress, AQueue.put_nowait, if_pos (And.intro h1 h2)]
  · intro hfull
    simp only [emit_progress, AQueue.put_nowait, if_neg hfull]

/-- C5 witness: at a bounded queue of capacity 1 already holding one item,
publishing drops the event and leaves the state unchanged. -/
theorem emit_progress_never_raises_witness :
    emit_progress (some ⟨some ⟨1, ["old"]⟩, none⟩) "new"
      = Except.ok (some ⟨some ⟨1, ["old"]⟩, none⟩) :=
  (emit_progress_never_raises ⟨some ⟨1, ["old"]⟩, none⟩ ⟨1, ["old"]⟩ "new").2.1
    (by decide) (by decide)

/-- C9: when the incoming message is empty or whitespace-only, `chat_turn`
yields the (converted) history unchanged, the current progress text, and an
empty report, and returns without invoking the orchestrator. -/
theorem chat_turn_blank_guard (message : String) (history : List (String × String))
    (progress_holder : String) (h : isBlank message = true) :
    chat_turn_first message history progress_holder
      = ChatTurnStep.earlyReturn (history_to_messages history) progress_holder "" := by
  simp [chat_turn_first, h]

/-- C9 witness: the guard fires on a whitespace-only message with a non-empty
history. -/
theorem chat_turn_blank_guard_witness :
    chat_turn_first "  " [("a", "b")] "progress so far"
      = ChatTurnStep.earlyReturn (history_to_messages [("a", "b")]) "progress so far" "" :=
  chat_turn_blank_guard "  " [("a", "b")] "progress so far" (by decide)

/-- C2 counterexample: supplying two clarification questions with a single
answer is not rejected — `build_planner_prompt` silently zips to the shorter
length, producing exactly the prompt of the one-question input. -/
theorem plan_searches_mismatch_not_rejected :
    plan_searches_prompt "Q" ["q1", "q2"] ["a1"]
      = plan_searches_prompt "Q" ["q1"] ["a1"] := rfl

/-- C2 (amended): a mismatched question/answer count is not rejected; the
pairs are silently zipped to the shorter of the two sequences, and when the
lengths are equal question i is paired positionally with answer i. -/
theorem plan_searches_zips_short (query : String) (qs as : List String) :
    (plan_searches_prompt query qs as
        = plan_searches_prompt query (qs.take (min qs.length as.length))
            (as.take (min qs.length as.length)))
      ∧ (qs.length = as.length →
          ∀ i, (h1 : i < qs.length) → (h2 : i < as.length) →
            (qs.zip as)[i]? = some (qs[i], as[i])) := by
  constructor
  · unfold plan_searches_prompt build_planner_prompt
    have hz : qs.zip as = (qs.take (min qs.length as.length)).zip
        (as.take (min qs.length as.length)) := by
      rw [List.zip, ← List.take_zipWith, ← List.length_zipWith, List.take_length]
    rw [← hz]
  · intro _ i h1 h2
    simp [List.getElem?_zip_eq_some, List.getElem?_eq_getElem, h1, h2]

/-- C2 witness: at equal lengths the single question is paired with the
single answer. -/
theorem plan_searches_zips_short_witness :
    (List.zip ["q1"] ["a1"])[0]? = some ("q1", "a1") :=
  (plan_searches_zips_short "Q" ["q1"] ["a1"]).2 rfl 0 (by decide) (by decide)

/-- Auxiliary: dropping to the last-5 window is idempotent. -/
theorem drop_window (h : List (String × String)) :
    (h.drop (h.length - 5)).drop ((h.drop (h.length - 5)).length - 5)
      = h.drop (h.length - 5) := by
  have hz : (h.drop (h.length - 5)).length - 5 = 0 := by
    simp only [List.length_drop]; omega
  rw [hz, List.drop_zero]

/-- Auxiliary: the context block only depends on the last 5 turns. -/
theorem history_context_drop (h : List (String × String)) :
    history_context (h.drop (h.length - 5)) = history_context h := by
  unfold history_context
  rw [drop_window]

/-- C7: the input string `run_research` forwards to the top-level reasoning
unit depends only on the most recent 5 history turns (replacing the history
by its last-5 window leaves the input unchanged, so older turns are
excluded), and for histories of at most 5 turns every turn with non-empty
content survives into the filtered window that is rendered into the
prompt. -/
theorem run_research_input_window (m : String) (h : List (String × String)) :
    run_research_input m h = run_research_input m (h.drop (h.length - 5))
      ∧ (h.length ≤ 5 → ∀ p ∈ h, (p.1 ≠ "" ∨ p.2 ≠ "") →
          p ∈ (h.drop (h.length - 5)).filter (fun p => p.1 ≠ "" || p.2 ≠ "")) := by
  constructor
  · by_cases hemp : h = []
    · subst hemp; rfl
    · have h1 : h.isEmpty = false := by simp [hemp]
      have hlen : 0 < h.length := List.length_pos.mpr hemp
      have h2 : (h.drop (h.length - 5)).isEmpty = false := by
        rw [List.isEmpty_eq_false]
        intro hnil
        rw [List.drop_eq_nil_iff] at hnil
        omega
      simp only [run_research_input, h1, h2, Bool.false_eq_true, if_false,
        history_context_drop]
  · intro hle p hp hne
    have hz : h.length - 5 = 0 := by omega
    rw [hz, List.drop_zero, List.mem_filter]
    refine ⟨hp, ?_⟩
    rcases hne with h' | h' <;> simp [h']

/-- C7 witness: a single-turn history is entirely inside the forwarded
window. -/
theorem run_research_input_window_witness :
    ("a", "b") ∈ (([("a", "b")] : List (String × String)).drop (1 - 5)).filter
      (fun p => p.1 ≠ "" || p.2 ≠ "") :=
  (run_research_input_window "hi" [("a", "b")]).2 (by decide) ("a", "b") (by decide)
    (Or.inl (by decide))

/-- C8: the per-run correlation identifier is stored in the `ResearchContext`,
the published progress event is exactly the external trace viewer URL with
the identifier appended, the event is enqueued on the (unbounded) progress
queue, and the `(reply, report)` result of the run does not depend on the
identifier — it is observational only. -/
theorem trace_id_observational (tid tid' : String) (fo : Option String) (q : AQueue) :
    (run_research_ctx (some q) tid).trace_id = some tid
      ∧ trace_event tid
          = "View trace: https://platform.openai.com/traces/trace?trace_id=" ++ tid
      ∧ (q.maxsize = 0 →
          (run_research_pipeline tid fo q).1.items = q.items ++ [trace_event tid])
      ∧ (run_research_pipeline tid fo q).2 = (run_research_pipeline tid' fo q).2 := by
  refine ⟨rfl, rfl, ?_, rfl⟩
  intro h0
  simp [run_research_pipeline, AQueue.put_nowait, h0]

/-- C8 witness: on an empty unbounded queue the trace event is published. -/
theorem trace_id_observational_witness :
    (run_research_pipeline "t1" (some "r") ⟨0, []⟩).1.items
      = [] ++ [trace_event "t1"] :=
  (trace_id_observational "t1" "t2" (some "r") ⟨0, []⟩).2.2.1 rfl

/-- Auxiliary: replaying the messages of a history whose turns all have
non-empty user and assistant components appends that history to any
accumulator. -/
theorem messages_to_history_aux (h : List (String × String)) :
    ∀ acc, (∀ p ∈ h, p.1 ≠ "" ∧ p.2 ≠ "") →
      List.foldl messages_to_history_step acc (history_to_messages h) = acc ++ h := by
  induction h with
  | nil => intro acc _; simp [history_to_messages]
  | cons hd tl ih =>
    intro acc hne
    obtain ⟨hu, ha⟩ := hne hd (by simp)
    have htl : ∀ p ∈ tl, p.1 ≠ "" ∧ p.2 ≠ "" := fun p hp => hne p (by simp [hp])
    obtain ⟨u, a⟩ := hd
    have hmsgs : history_to_messages ((u, a) :: tl)
        = Msg.mk "user" u :: Msg.mk "assistant" a :: history_to_messages tl := by
      simp only [history_to_messages, List.flatMap_cons]
      simp [hu, ha]
    rw [hmsgs]
    simp only [List.foldl_cons]
    have s1 : messages_to_history_step acc (Msg.mk "user" u) = acc ++ [(u, "")] := by
      simp [messages_to_history_step]
    have s2 : messages_to_history_step (acc ++ [(u, "")]) (Msg.mk "assistant" a)
        = acc ++ [(u, a)] := by
      simp only [messages_to_history_step]
      rw [if_neg (by decide)]
      simp [List.getLast?_concat]
    rw [s1, s2, ih (acc ++ [(u, a)]) htl]
    simp

/-- C10: for every history whose pairs both have non-empty components,
converting to role-tagged messages and back is the identity. -/
theorem messages_history_roundtrip (h : List (String × String))
    (hne : ∀ p ∈ h, p.1 ≠ "" ∧ p.2 ≠ "") :
    messages_to_history (history_to_messages h) = h := by
  simpa using messages_to_history_aux h [] hne

/-- C10 witness: the round trip is the identity on a concrete two-turn
history. -/
theorem messages_history_roundtrip_witness :
    messages_to_history (history_to_messages [("hi", "hello"), ("more", "sure")])
      = [("hi", "hello"), ("more", "sure")] :=
  messages_history_roundtrip [("hi", "hello"), ("more", "sure")] (by decide)

end DeepResearch
